import Mathlib

set_option maxRecDepth 8000

/-! Verification development for the DON instrumented test harness
(tests/instrumented.py).  Definitions are translated from the Python
source.  The companion module testing.py (MiniTestFramework,
OrderedClassMembers, Valgrind, TSAN) is not part of the repository
snapshot; the pieces of it that claims depend on are modelled from the
specification and carry a doc comment saying so. -/

/-- Parsed command-line flags of parse_args in tests/instrumented.py.
All five switch flags are independent booleans (argparse store_true),
so no pair of them is mutually exclusive. -/
structure Args where
  valgrind : Bool
  valgrind_thread : Bool
  sanitizer_undefined : Bool
  sanitizer_thread : Bool
  none_flag : Bool
  engine_path : String
deriving DecidableEq

/-- Modelled from the spec: Valgrind.get_valgrind_command of the missing
testing.py returns a non-empty external checker-tool argv that wraps the
engine binary (MemoryChecker mode). -/
def get_valgrind_command : List String :=
  ["valgrind", "--error-exitcode=42", "--errors-for-leak-kinds=all", "--leak-check=full"]

/-- Modelled from the spec: Valgrind.get_valgrind_thread_command of the
missing testing.py returns a non-empty external checker-tool argv for the
MemoryCheckerThreaded mode, distinct from the plain MemoryChecker one. -/
def get_valgrind_thread_command : List String :=
  ["valgrind", "--error-exitcode=42", "--fair-sched=try"]

/-- Translation of get_prefix (tests/instrumented.py lines 22-28). -/
def get_prefix (args : Args) : List String :=
  if args.valgrind then get_valgrind_command
  else if args.valgrind_thread then get_valgrind_thread_command
  else []

/-- Translation of get_threads (tests/instrumented.py lines 31-34). -/
def get_threads (args : Args) : Nat :=
  if args.valgrind_thread || args.sanitizer_thread then 2 else 1

/-- Boolean test that the first list is an initial segment of the second,
character by character; helper for the Python substring operator. -/
def leadsWith : List Char → List Char → Bool
  | [], _ => true
  | _ :: _, [] => false
  | a :: as, b :: bs => a == b && leadsWith as bs

/-- Boolean substring occurrence test on character lists, the semantics
of the Python expression pat in line. -/
def subAt : List Char → List Char → Bool
  | pat, [] => leadsWith pat []
  | pat, c :: cs => leadsWith pat (c :: cs) || subAt pat cs

/-- Python substring test: pat occurs inside line. -/
def strContains (line pat : String) : Bool :=
  subAt pat.toList line.toList

/-- Diagnostic sentinel scanned for in undefined-behavior-sanitizer mode
(tests/instrumented.py line 44). -/
def sentinel_ub : String := "runtime error:"

/-- Diagnostic sentinel scanned for in thread-sanitizer mode
(tests/instrumented.py line 54). -/
def sentinel_tsan : String := "WARNING: ThreadSanitizer:"

/-- Index of the first line satisfying a predicate, the way the Python
for idx, line in enumerate(output) loop finds its first hit. -/
def findIdxB (p : String → Bool) : List String → Option Nat
  | [] => none
  | l :: ls => if p l then some 0 else (findIdxB p ls).map (· + 1)

/-- Second half of postfix_check (tests/instrumented.py lines 52-62): the
thread-sanitizer scan, reached only when the undefined-behavior scan did
not return.  Yields the returned boolean together with the lines the
Python code prints as context. -/
def tsanStep (args : Args) (output : List String) : Bool × List String :=
  if args.sanitizer_thread then
    match findIdxB (fun l => strContains l sentinel_tsan) output with
    | some idx => (false, (output.drop idx).take 50)
    | none => (true, [])
  else (true, [])

/-- Translation of postfix_check (tests/instrumented.py lines 41-62),
kept together with the context lines that the Python code prints: on a
sentinel hit at index idx it prints output[idx+i] for i in range(50)
whenever idx+i is in range, which is the slice (output.drop idx).take 50,
and returns False at once. -/
def checkWithContext (args : Args) (output : List String) : Bool × List String :=
  if args.sanitizer_undefined then
    match findIdxB (fun l => strContains l sentinel_ub) output with
    | some idx => (false, (output.drop idx).take 50)
    | none => tsanStep args output
  else tsanStep args output

/-- Boolean result of postfix_check as the Python caller sees it. -/
def postfix_check (args : Args) (output : List String) : Bool :=
  (checkWithContext args output).1

/-- A test case of a suite: its declared name, whether its body's own
assertions pass, and the output the engine produces while it runs. -/
structure TestCase where
  name : String
  bodyPasses : Bool
  bodyOutput : List String
deriving DecidableEq

/-- Modelled from the spec: a suite as registered by the
OrderedClassMembers metaclass of the missing testing.py — the tests
field is the explicit ordered registration list built at class-definition
time, in source-declaration order, never sorted.  setupPasses states
whether the suite-setup hook succeeds. -/
structure Suite where
  name : String
  setupPasses : Bool
  tests : List TestCase
deriving DecidableEq

/-- Outcome record the runner keeps for one executed test. -/
structure TestRecord where
  name : String
  bodyPassed : Bool
  checkedOutput : List String
  teardownPassed : Bool
  logAfterTeardown : List String
deriving DecidableEq

/-- One per-test cycle: the body appends its output to the log, then the
afterEach teardown of tests/instrumented.py (lines 80-82) first asserts
postfix_check on the full captured output and only afterwards clears the
OutputLog; the second component is the log handed to the next test. -/
def runTest (args : Args) (log : List String) (t : TestCase) : TestRecord × List String :=
  let full := log ++ t.bodyOutput
  let check := postfix_check args full
  (⟨t.name, t.bodyPasses, full, check, []⟩, [])

/-- Modelled from the spec: the per-test loop of MiniTestFramework
(missing testing.py) — each declared test runs in order, its teardown
always runs, and failures never abort the loop. -/
def runTests (args : Args) (log : List String) : List TestCase → List TestRecord
  | [] => []
  | t :: ts => (runTest args log t).1 :: runTests args (runTest args log t).2 ts

/-- Modelled from the spec: a suite whose suite-setup hook raises is
marked errored and its tests are skipped; otherwise its tests run in
declaration order starting from an empty OutputLog. -/
def runSuite (args : Args) (s : Suite) : List TestRecord :=
  if s.setupPasses then runTests args [] s.tests else []

/-- A test passes only when its body and its teardown both pass. -/
def testPassed (r : TestRecord) : Bool :=
  r.bodyPassed && r.teardownPassed

/-- Modelled from the spec: a suite fails when its setup errored or any
of its tests failed. -/
def suiteFailed (args : Args) (s : Suite) : Bool :=
  !s.setupPasses || (runSuite args s).any (fun r => ! testPassed r)

/-- Modelled from the spec: MiniTestFramework.has_failed of the missing
testing.py — true when any suite or any test failed or errored. -/
def has_failed (args : Args) (suites : List Suite) : Bool :=
  suites.any (suiteFailed args)

/-- Exit-code computation of the main block (tests/instrumented.py lines
469-472): sys.exit(1) when the framework has failed, sys.exit(0)
otherwise. -/
def mainExitCode (args : Args) (suites : List Suite) : Nat :=
  if has_failed args suites then 1 else 0

/-- Observable events of one harness run, in order. -/
inductive Event where
  | setTsan : Event
  | unsetTsan : Event
  | fixture : String → Event
  | suiteStart : String → Event
  | testRun : String → Event
  | suiteEnd : String → Event
  | exitCode : Nat → Event
deriving DecidableEq

/-- Events a single suite contributes to the run trace. -/
def suiteEvents (args : Args) (s : Suite) : List Event :=
  Event.suiteStart s.name ::
    ((runSuite args s).map (fun r => Event.testRun r.name) ++ [Event.suiteEnd s.name])

/-- Trace of the main block (tests/instrumented.py lines 454-472):
EPD.create_bench_epd; TSAN.set_tsan_option; Syzygy.download_syzygy;
framework.run over the suites; EPD.delete_bench_epd;
TSAN.unset_tsan_option; sys.exit.  The TSAN toggle calls are modelled
from the spec (their bodies live in the missing testing.py); their call
sites and order are the source's. -/
def mainTrace (args : Args) (suites : List Suite) : List Event :=
  Event.fixture ("create_bench_epd") :: Event.setTsan :: Event.fixture ("download_syzygy") ::
    (suites.flatMap (suiteEvents args) ++
      [Event.fixture ("delete_bench_epd"), Event.unsetTsan,
        Event.exitCode (mainExitCode args suites)])

/-- All suffixes of a character list, longest first, down to the empty
one. -/
def suffixesOf : List Char → List (List Char)
  | [] => [[]]
  | c :: cs => (c :: cs) :: suffixesOf cs

/-- Modelled from the spec: glob matching of the OutputMatcher in the
missing testing.py — the pattern must match the whole line, a star
matches zero or more arbitrary characters (so the rest of the pattern may
resume at any suffix), every other character matches itself. -/
def globMatchL : List Char → List Char → Bool
  | [], s => s.isEmpty
  | c :: ps, s =>
    if c == '*' then (suffixesOf s).any (fun t => globMatchL ps t)
    else
      match s with
      | [] => false
      | d :: ds => c == d && globMatchL ps ds

/-- Whole-line glob match on strings. -/
def globMatch (pat line : String) : Bool :=
  globMatchL pat.toList line.toList

/-- Glob pattern the mate-in-1 test expects (tests/instrumented.py
line 278). -/
def mateGlob : String := "* score mate 1 * pv d5e6"

/-- The two match-rule kinds the mate-in-1 test uses. -/
inductive MatchRule where
  | globPat : String → MatchRule
  | exactLine : String → MatchRule
deriving DecidableEq

/-- Modelled from the spec: evaluation of a sequence of waiting
assertions of the missing testing.py over the not-yet-consumed output —
a glob expectation consumes up to and including the first fully matching
line, an exact expectation requires the next unconsumed line to be
exactly the given text. -/
def evalRulesL : List String → List MatchRule → Bool
  | _, [] => true
  | rem, MatchRule.globPat p :: rest =>
    match findIdxB (fun l => globMatch p l) rem with
    | none => false
    | some i => evalRulesL (rem.drop (i + 1)) rest
  | rem, MatchRule.exactLine t :: rest =>
    match rem with
    | [] => false
    | l :: ls => l == t && evalRulesL ls rest

/-- Expectations of test_fen_position_mate_1 (tests/instrumented.py
lines 278-279): expect the mate glob, then the exact bestmove line. -/
def mateExpectations : List MatchRule :=
  [MatchRule.globPat mateGlob, MatchRule.exactLine ("bestmove d5e6")]

/-- Pass condition of the mate-in-1 test on a given engine output. -/
def mateTestPasses (output : List String) : Bool :=
  evalRulesL output mateExpectations

/-- The command test_set_threads_option sends (tests/instrumented.py
line 198): the Threads value is get_threads(), not a literal 1. -/
def threadsCmd (args : Args) : String :=
  "setoption name Threads value " ++ toString ( get_threads args)

/-- Commands each TestInteractive test sends, in declaration order,
copied from tests/instrumented.py lines 190-362. -/
def interactiveSends (args : Args) : List (String × List String) :=
  [("test_startup_output", []),
   ("test_uci_command", ["uci"]),
   ("test_set_threads_option", [threadsCmd args]),
   ("test_ucinewgame_and_startpos_nodes_1000",
     ["ucinewgame", "position startpos", "go nodes 1000"]),
   ("test_ucinewgame_and_startpos_moves",
     ["ucinewgame", "position startpos moves e2e4 e7e6", "go nodes 1000"]),
   ("test_fen_position_1",
     ["ucinewgame", "position fen 5rk1/1K4p1/8/8/3B4/8/8/8 b - - 0 1", "go nodes 1000"]),
   ("test_fen_position_2_flip",
     ["ucinewgame", "position fen 5rk1/1K4p1/8/8/3B4/8/8/8 b - - 0 1", "flip", "go nodes 1000"]),
   ("test_depth_5_with_callback",
     ["ucinewgame", "position startpos", "go depth 5"]),
   ("test_ucinewgame_and_go_depth_9",
     ["ucinewgame", "setoption name UCI_ShowWDL value true", "position startpos", "go depth 9"]),
   ("test_clear_hash", ["setoption name Clear Hash"]),
   ("test_fen_position_mate_1",
     ["ucinewgame", "position fen 5K2/8/2qk4/2nPp3/3r4/6B1/B7/3R4 w - e6", "go depth 18"]),
   ("test_fen_position_mate_minus_1",
     ["ucinewgame", "position fen 2brrb2/8/p7/Q7/1p1kpPp1/1P1pN1K1/3P4/8 b - -", "go depth 18"]),
   ("test_fen_position_fixed_node",
     ["ucinewgame", "position fen 5K2/8/2P1P1Pk/6pP/3p2P1/1P6/3P4/8 w - - 0 1", "go nodes 500000"]),
   ("test_fen_position_with_mate_go_depth",
     ["ucinewgame", "position fen 8/5R2/2K1P3/4k3/8/b1PPpp1B/5p2/8 w - -", "go depth 18 searchmoves c6d7"]),
   ("test_fen_position_with_mate_go_mate",
     ["ucinewgame", "position fen 8/5R2/2K1P3/4k3/8/b1PPpp1B/5p2/8 w - -", "go mate 2 searchmoves c6d7"]),
   ("test_fen_position_with_mate_go_nodes",
     ["ucinewgame", "position fen 8/5R2/2K1P3/4k3/8/b1PPpp1B/5p2/8 w - -", "go nodes 500000 searchmoves c6d7"]),
   ("test_fen_position_depth_27",
     ["ucinewgame", "position fen r1b2r1k/pp1p2pp/2p5/2B1q3/8/8/P1PN2PP/R4RK1 w - - 0 18", "go"]),
   ("test_fen_position_with_mate_go_depth_and_promotion",
     ["ucinewgame", "position fen 8/5R2/2K1P3/4k3/8/b1PPpp1B/5p2/8 w - - moves c6d7 f2f1q", "go depth 18"]),
   ("test_fen_position_with_mate_go_depth_and_searchmoves",
     ["ucinewgame", "position fen 8/5R2/2K1P3/4k3/8/b1PPpp1B/5p2/8 w - -", "go depth 18 searchmoves c6d7"]),
   ("test_fen_position_with_moves_with_mate_go_depth_and_searchmoves",
     ["ucinewgame", "position fen 8/5R2/2K1P3/4k3/8/b1PPpp1B/5p2/8 w - - moves c6d7", "go depth 18 searchmoves e3e2"]),
   ("test_verify_nnue_network",
     ["setoption name EvalFileBig value verify.nnue", "position startpos", "go depth 5"]),
   ("test_multipv_setting",
     ["setoption name MultiPV value 4", "position startpos", "go depth 5"]),
   ("test_fen_position_with_skill_level",
     ["setoption name SkillLevel value 10", "position startpos", "go depth 5",
      "setoption name SkillLevel value 20"])]

/-- The full command stream the interactive suite sends, in execution
order. -/
def allInteractiveSends (args : Args) : List String :=
  (interactiveSends args).flatMap Prod.snd

/-- Boolean in-order subsequence test. -/
def isSubseqOf : List String → List String → Bool
  | [], _ => true
  | _ :: _, [] => false
  | a :: as, b :: bs => if a == b then isSubseqOf as bs else isSubseqOf (a :: as) bs

/-- Configuration with no instrumentation flag. -/
def argsNone : Args := ⟨false, false, false, false, true, "./don"⟩

/-- Configuration with only the sanitizer-undefined flag. -/
def argsSU : Args := ⟨false, false, true, false, false, "./don"⟩

/-- Configuration with only the sanitizer-thread flag. -/
def argsTsan : Args := ⟨false, false, false, true, false, "./don"⟩

/-- Configuration with only the valgrind flag. -/
def argsVal : Args := ⟨true, false, false, false, false, "./don"⟩

/-- Configuration with both valgrind flags at once. -/
def argsBothVal : Args := ⟨true, true, false, false, false, "./don"⟩

/-- A 52-line captured output whose first line carries the
undefined-behavior sentinel. -/
def exOut : List String :=
  "runtime error: boom" :: List.replicate 51 ("x")

/-- A two-test suite declared in non-alphabetic order. -/
def suiteBA : Suite :=
  ⟨"S", true, [⟨"test_b", true, []⟩, ⟨"test_a", true, []⟩]⟩

/-- The first-hit scan finds nothing exactly when no line satisfies the
predicate. -/
theorem findIdxB_eq_none_iff (p : String → Bool) (out : List String) :
    findIdxB p out = none ↔ ∀ l ∈ out, p l = false := by
  induction out with
  | nil => simp [findIdxB]
  | cons a as ih =>
    by_cases h : p a = true
    · simp [findIdxB, h]
    · have h' : p a = false := by simpa using h
      simp [findIdxB, h', ih]

/-- A successful first-hit scan exhibits a line satisfying the
predicate. -/
theorem findIdxB_some_mem (p : String → Bool) :
    ∀ (out : List String) (i : Nat), findIdxB p out = some i →
      ∃ l ∈ out, p l = true := by
  intro out
  induction out with
  | nil => intro i h; simp [findIdxB] at h
  | cons a as ih =>
    intro i h
    by_cases hp : p a = true
    · exact ⟨a, List.mem_cons_self a as, hp⟩
    · have hp' : p a = false := by simpa using hp
      simp only [findIdxB, hp', if_neg] at h
      rcases hm : findIdxB p as with _ | j
      · rw [hm] at h; simp at h
      · obtain ⟨l, hl, hpl⟩ := ih j hm
        exact ⟨l, List.mem_cons_of_mem a hl, hpl⟩

/-- C4 counterexample: the claim says the effective thread count is 2
exactly when a sanitizer flag is set, but with only --sanitizer-undefined
the code returns 1. -/
theorem c4_counterexample :
    ¬ ( get_threads argsSU = 2 ↔
        (argsSU.sanitizer_undefined || argsSU.sanitizer_thread) = true) := by
  decide

/-- C4 (amended): the effective thread count is 2 exactly when
--valgrind-thread or --sanitizer-thread is set, and 1 in every other
configuration. -/
theorem c4_thread_count (args : Args) :
    ( get_threads args = 2 ↔ (args.valgrind_thread || args.sanitizer_thread) = true)
    ∧ ( get_threads args = 1 ↔ (args.valgrind_thread || args.sanitizer_thread) = false) := by
  unfold get_threads
  rcases h : args.valgrind_thread || args.sanitizer_thread <;> simp [h]

/-- C5 counterexample: on a 52-line output with the sentinel on line 0,
the code does not print lines 0 through min(0+50, 51) (51 lines) as the
claim states; it prints only 50. -/
theorem c5_counterexample :
    ¬ ((checkWithContext argsSU exOut).2 = (exOut.drop 0).take 51) := by
  decide

/-- C5 (amended): when the active mode's sentinel first occurs at index
i, postfix_check prints lines i through min(i+49, n-1) — the matching
line and up to the next 49 lines, at most 50 in all — and returns
failure immediately, without scanning further occurrences. -/
theorem c5_context_window (args : Args) (output : List String) (i : Nat)
    (h : (args.sanitizer_undefined = true ∧
            findIdxB (fun l => strContains l sentinel_ub) output = some i)
       ∨ (args.sanitizer_undefined = false ∧ args.sanitizer_thread = true ∧
            findIdxB (fun l => strContains l sentinel_tsan) output = some i)) :
    checkWithContext args output = (false, (output.drop i).take 50) := by
  rcases h with ⟨hsu, hf⟩ | ⟨hsu, hst, hf⟩
  · simp [checkWithContext, hsu, hf]
  · simp [checkWithContext, tsanStep, hsu, hst, hf]

/-- C5 witness: the amended statement evaluated on the concrete 52-line
output. -/
theorem c5_witness :
    checkWithContext argsSU exOut = (false, (exOut.drop 0).take 50) :=
  c5_context_window argsSU exOut 0 (Or.inl ⟨rfl, by decide⟩)

/-- C6: the launch prefix is the (non-empty) external checker invocation
exactly in the valgrind modes and empty in every other mode. -/
theorem c6_checker_selection (args : Args) :
    (args.valgrind = true → get_prefix args = get_valgrind_command)
    ∧ (args.valgrind = false → args.valgrind_thread = true →
         get_prefix args = get_valgrind_thread_command)
    ∧ (args.valgrind = false → args.valgrind_thread = false → get_prefix args = [])
    ∧ (( get_prefix args ≠ []) ↔ (args.valgrind || args.valgrind_thread) = true)
    ∧ get_valgrind_command ≠ [] ∧ get_valgrind_thread_command ≠ [] := by
  rcases hv : args.valgrind <;> rcases hvt : args.valgrind_thread <;>
    simp [ get_prefix, hv, hvt, get_valgrind_command, get_valgrind_thread_command]

/-- C6 witness: concrete evaluations of the selection statement. -/
theorem c6_witness :
    get_prefix argsVal = get_valgrind_command ∧ get_prefix argsNone = [] :=
  ⟨(c6_checker_selection argsVal).1 rfl,
   (c6_checker_selection argsNone).2.2.1 rfl rfl⟩

/-- C10: when --valgrind and --valgrind-thread are both set, the
--valgrind branch wins: the prefix is the plain valgrind command, never
the thread one, while the thread count is still 2. -/
theorem c10_flag_priority (args : Args)
    (hv : args.valgrind = true) (hvt : args.valgrind_thread = true) :
    get_prefix args = get_valgrind_command
    ∧ get_prefix args ≠ get_valgrind_thread_command
    ∧ get_threads args = 2 := by
  refine ⟨?_, ?_, ?_⟩ <;>
    simp [ get_prefix, get_threads, hv, hvt, get_valgrind_command, get_valgrind_thread_command]

/-- C10 witness: the combination at a concrete configuration carrying
both flags. -/
theorem c10_witness :
    get_prefix argsBothVal = get_valgrind_command
    ∧ get_prefix argsBothVal ≠ get_valgrind_thread_command
    ∧ get_threads argsBothVal = 2 :=
  c10_flag_priority argsBothVal rfl rfl

/-- The thread-sanitizer half of postfix_check fails exactly when that
mode is active and its sentinel occurs in some captured line. -/
theorem tsan_fst_false_iff (args : Args) (output : List String) :
    (tsanStep args output).1 = false ↔
      (args.sanitizer_thread = true ∧ ∃ l ∈ output, strContains l sentinel_tsan = true) := by
  unfold tsanStep
  rcases hst : args.sanitizer_thread
  · simp [hst]
  · rcases hf : findIdxB (fun l => strContains l sentinel_tsan) output with _ | i
    · have hn := (findIdxB_eq_none_iff (fun l => strContains l sentinel_tsan) output).mp hf
      simp only [hst, if_true, hf, true_and]
      constructor
      · intro hx; exact absurd hx (by simp)
      · rintro ⟨l, hl, hc⟩
        have h0 := hn l hl
        simp only at h0
        rw [h0] at hc
        cases hc
    · obtain ⟨l, hl, hc⟩ := findIdxB_some_mem (fun l => strContains l sentinel_tsan) output i hf
      simp only [hst, if_true, hf, true_and]
      constructor
      · intro _; exact ⟨l, hl, hc⟩
      · intro _; trivial

/-- C1: postfix_check fails exactly when the sentinel of an active
sanitizer mode occurs as a substring of some captured line, succeeds
whenever no sanitizer mode is active or no sentinel line exists, and —
because afterEach asserts it — a sentinel line fails the test even when
the body itself (the exit-code assertion) passed. -/
theorem c1_sentinel_detection (args : Args) (output : List String) :
    ( postfix_check args output = false ↔
        ((args.sanitizer_undefined = true ∧ ∃ l ∈ output, strContains l sentinel_ub = true) ∨
         (args.sanitizer_thread = true ∧ ∃ l ∈ output, strContains l sentinel_tsan = true)))
    ∧ (∀ (name : String) (passes : Bool),
        testPassed ((runTest args [] ⟨name, passes, output⟩).1)
          = (passes && postfix_check args output)) := by
  constructor
  · rcases hsu : args.sanitizer_undefined
    · have hpc : postfix_check args output = (tsanStep args output).1 := by
        unfold postfix_check checkWithContext
        rw [hsu]
        simp
      rw [hpc, tsan_fst_false_iff]
      simp [hsu]
    · rcases hf : findIdxB (fun l => strContains l sentinel_ub) output with _ | i
      · have hpc : postfix_check args output = (tsanStep args output).1 := by
          unfold postfix_check checkWithContext
          rw [hsu]
          simp [hf]
        rw [hpc, tsan_fst_false_iff]
        have hn := (findIdxB_eq_none_iff (fun l => strContains l sentinel_ub) output).mp hf
        constructor
        · intro hx; exact Or.inr hx
        · rintro (⟨-, l, hl, hc⟩ | hx)
          · have h0 := hn l hl
            simp only at h0
            rw [h0] at hc
            cases hc
          · exact hx
      · obtain ⟨l, hl, hc⟩ := findIdxB_some_mem (fun l => strContains l sentinel_ub) output i hf
        have hpc : postfix_check args output = false := by
          unfold postfix_check checkWithContext
          rw [hsu]
          simp [hf]
        rw [hpc]
        simp only [eq_self_iff_true, true_iff]
        exact Or.inl ⟨trivial, l, hl, hc⟩
  · intro name passes
    simp [runTest, testPassed]

/-- The runner's record list carries the test names in declaration
order, whatever log it starts from. -/
theorem runTests_names (args : Args) (ts : List TestCase) :
    ∀ log : List String,
      (runTests args log ts).map TestRecord.name = ts.map TestCase.name := by
  induction ts with
  | nil => intro log; rfl
  | cons t ts ih =>
    intro log
    simp only [runTests, List.map_cons, List.map]
    rw [ih]
    rfl

/-- C2: tests execute in the exact order in which they were declared in
the suite's ordered registration list, never in sorted or hash order. -/
theorem c2_declaration_order (args : Args) (s : Suite) (h : s.setupPasses = true) :
    (runSuite args s).map TestRecord.name = s.tests.map TestCase.name := by
  unfold runSuite
  rw [h]
  simp [runTests_names]

/-- C2 witness: the suite declaring test_b before test_a runs test_b
first, although alphabetic order would reverse them. -/
theorem c2_witness :
    (runSuite argsNone suiteBA).map TestRecord.name = ["test_b", "test_a"]
    ∧ ("test_b" :: "test_a" :: []) ≠ ("test_a" :: "test_b" :: []) :=
  ⟨c2_declaration_order argsNone suiteBA rfl, by decide⟩

/-- The framework has not failed exactly when every suite's setup passed
and every executed test passed. -/
theorem has_failed_false_iff (args : Args) (suites : List Suite) :
    has_failed args suites = false ↔
      ∀ s ∈ suites, s.setupPasses = true ∧ ∀ r ∈ runSuite args s, testPassed r = true := by
  unfold has_failed suiteFailed
  rw [List.any_eq_false]
  constructor
  · intro h s hs
    have hb := h s hs
    rw [Bool.not_eq_true, Bool.or_eq_false_iff] at hb
    obtain ⟨h1, h2⟩ := hb
    refine ⟨by simpa using h1, ?_⟩
    intro r hr
    rw [List.any_eq_false] at h2
    have h3 := h2 r hr
    simpa using h3
  · intro h s hs
    obtain ⟨h1, h2⟩ := h s hs
    rw [Bool.not_eq_true, Bool.or_eq_false_iff]
    refine ⟨by simp [h1], ?_⟩
    rw [List.any_eq_false]
    intro r hr
    simp [h2 r hr]

/-- C3: the harness exits 0 exactly when every suite setup and every
test (body plus teardown) passed, and exits 1 in every other case. -/
theorem c3_exit_code (args : Args) (suites : List Suite) :
    (mainExitCode args suites = 0 ↔
      ∀ s ∈ suites, s.setupPasses = true ∧ ∀ r ∈ runSuite args s, testPassed r = true)
    ∧ (mainExitCode args suites = 0 ∨ mainExitCode args suites = 1) := by
  constructor
  · unfold mainExitCode
    rcases hh : has_failed args suites
    · simp only [hh, Bool.false_eq_true, if_false]
      simp only [eq_self_iff_true, true_iff]
      exact (has_failed_false_iff args suites).mp hh
    · simp only [hh, if_true]
      constructor
      · intro h0; cases h0
      · intro hall
        rw [(has_failed_false_iff args suites).mpr hall] at hh
        cases hh
  · unfold mainExitCode
    rcases hh : has_failed args suites <;> simp [hh]

/-- C7: in every suite the per-test teardown runs after every body, even
a failing one; it evaluates postfix_check on the full pre-clear captured
output and only afterwards clears the log, so each following test starts
from an empty OutputLog. -/
theorem c7_teardown_discipline (args : Args) (tests : List TestCase) :
    List.Forall₂ (fun t r =>
        r.checkedOutput = t.bodyOutput
        ∧ r.teardownPassed = postfix_check args t.bodyOutput
        ∧ r.logAfterTeardown = ([] : List String)
        ∧ r.bodyPassed = t.bodyPasses)
      tests (runTests args [] tests)
    ∧ (∀ (log : List String) (t : TestCase),
        (runTest args log t).1.checkedOutput = log ++ t.bodyOutput
        ∧ (runTest args log t).2 = []) := by
  constructor
  · induction tests with
    | nil => exact List.Forall₂.nil
    | cons t ts ih => exact List.Forall₂.cons ⟨rfl, rfl, rfl, rfl⟩ ih
  · intro log t
    exact ⟨rfl, rfl⟩

/-- No event a suite contributes to the run trace touches the
thread-sanitizer toggle. -/
theorem suiteEvents_not_tsan (args : Args) (s : Suite) :
    ∀ e ∈ suiteEvents args s, e ≠ Event.setTsan ∧ e ≠ Event.unsetTsan := by
  intro e he
  unfold suiteEvents at he
  rcases List.mem_cons.mp he with rfl | h
  · exact ⟨fun hc => Event.noConfusion hc, fun hc => Event.noConfusion hc⟩
  · rcases List.mem_append.mp h with h2 | h2
    · obtain ⟨r, -, rfl⟩ := List.mem_map.mp h2
      exact ⟨fun hc => Event.noConfusion hc, fun hc => Event.noConfusion hc⟩
    · have h3 := List.mem_singleton.mp h2
      subst h3
      exact ⟨fun hc => Event.noConfusion hc, fun hc => Event.noConfusion hc⟩

/-- C8: in the run trace the thread-sanitizer toggle is set exactly
once, before any suite event, and unset exactly once, after every suite
event; no suite or test boundary ever sets or unsets it. -/
theorem c8_tsan_run_scope (args : Args) (suites : List Suite) :
    (mainTrace args suites
      = Event.fixture ("create_bench_epd") :: Event.setTsan ::
          Event.fixture ("download_syzygy") ::
          (suites.flatMap (suiteEvents args) ++
            [Event.fixture ("delete_bench_epd"), Event.unsetTsan,
             Event.exitCode (mainExitCode args suites)]))
    ∧ (∀ e ∈ suites.flatMap (suiteEvents args),
        e ≠ Event.setTsan ∧ e ≠ Event.unsetTsan)
    ∧ (mainTrace args suites).count Event.setTsan = 1
    ∧ (mainTrace args suites).count Event.unsetTsan = 1 := by
  have hmid : ∀ e ∈ suites.flatMap (suiteEvents args),
      e ≠ Event.setTsan ∧ e ≠ Event.unsetTsan := by
    intro e he
    obtain ⟨s, -, hes⟩ := List.mem_flatMap.mp he
    exact suiteEvents_not_tsan args s e hes
  have hset : Event.setTsan ∉ suites.flatMap (suiteEvents args) :=
    fun hmem => (hmid _ hmem).1 rfl
  have hunset : Event.unsetTsan ∉ suites.flatMap (suiteEvents args) :=
    fun hmem => (hmid _ hmem).2 rfl
  refine ⟨rfl, hmid, ?_, ?_⟩
  · simp [mainTrace, List.count_cons, List.count_append,
      List.count_eq_zero.mpr hset]
  · simp [mainTrace, List.count_cons, List.count_append,
      List.count_eq_zero.mpr hunset]

/-- The mate-in-1 test passes exactly when the first line fully matching
the mate glob is immediately followed by the exact bestmove line. -/
theorem mate_pass_iff (output : List String) :
    mateTestPasses output = true ↔
      ∃ i, findIdxB (fun l => globMatch mateGlob l) output = some i ∧
        (output.drop (i + 1)).head? = some ("bestmove d5e6") := by
  unfold mateTestPasses mateExpectations
  rcases hf : findIdxB (fun l => globMatch mateGlob l) output with _ | i
  · simp [evalRulesL, hf]
  · rcases hd : output.drop (i + 1) with _ | ⟨l, ls⟩
    · have hge : output[i + 1]? = none := by
        rw [← List.head?_drop, hd]
        rfl
      simp [evalRulesL, hf, hd, hge]
    · have hge : output[i + 1]? = some l := by
        rw [← List.head?_drop, hd]
        rfl
      simp [evalRulesL, hf, hd, hge]

/-- C9 counterexample: in thread-sanitizer mode the interactive suite
never sends the literal command the claim requires — the Threads value
sent there is 2, not 1. -/
theorem c9_counterexample :
    ¬ ("setoption name Threads value 1" ∈ allInteractiveSends argsTsan) := by
  decide

/-- C9 (amended): when no -thread mode is active (the Threads value sent
is get_threads() = 1), the interactive suite's command stream contains,
in order, the Threads setoption, the mate-position command, and go depth
18; the mate test itself is declared with exactly ucinewgame, the
position command and go depth 18; and it passes exactly when the first
glob-matching score line is immediately followed by the exact line
bestmove d5e6. -/
theorem c9_mate_scenario (args : Args) (h : get_threads args = 1) :
    isSubseqOf ["setoption name Threads value 1",
        "position fen 5K2/8/2qk4/2nPp3/3r4/6B1/B7/3R4 w - e6",
        "go depth 18"] (allInteractiveSends args) = true
    ∧ (interactiveSends args)[10]? =
        some (("test_fen_position_mate_1"),
          ["ucinewgame", "position fen 5K2/8/2qk4/2nPp3/3r4/6B1/B7/3R4 w - e6",
           "go depth 18"])
    ∧ (∀ output : List String, mateTestPasses output = true ↔
        ∃ i, findIdxB (fun l => globMatch mateGlob l) output = some i ∧
          (output.drop (i + 1)).head? = some ("bestmove d5e6")) := by
  have ht : threadsCmd args = "setoption name Threads value 1" := by
    unfold threadsCmd
    rw [h]
    decide
  refine ⟨?_, ?_, fun output => mate_pass_iff output⟩
  · simp only [allInteractiveSends, interactiveSends, ht]
    decide
  · rfl

/-- C9 witness: the amended scenario at the default configuration. -/
theorem c9_witness :
    isSubseqOf ["setoption name Threads value 1",
        "position fen 5K2/8/2qk4/2nPp3/3r4/6B1/B7/3R4 w - e6",
        "go depth 18"] (allInteractiveSends argsNone) = true :=
  (c9_mate_scenario argsNone rfl).1
